import Mathlib

/-!
Shallow embedding of `src/core/lib/iomgr/resolve_address_posix.cc`
(`grpc_core::NativeDNSResolver` and the helper `NativeDNSRequest`).

The two external facilities the file uses are passed in explicitly:

* the OS address-resolution facility (`getaddrinfo` / `gai_strerror` /
  `freeaddrinfo`) is an `OS` record of pure functions;
* `SplitHostPort` (declared in `host_port.h`, whose implementation is an
  external collaborator of this file) is a parameter
  `split : String → String × String` giving the `(host, port)` strings it
  writes; a failed split leaves both output strings empty, and the C++ code
  only ever inspects those strings;
* the event engine's `Run` facility is modelled by recording, for each call,
  the list of scheduled work items, each work item being the list of
  callback invocations it performs when it runs.

`LookupHostnameBlocking` additionally returns a `BlockingTrace` recording
the `getaddrinfo` calls issued (in order), the OS-owned result lists that
were produced, and the ones released via `freeaddrinfo`, so that claims
about retries and resource release are statable.
-/

namespace GrpcNativeResolver

/-- One entry of the OS `addrinfo` result list: the socket-address bytes
(`ai_addr`) and the occupied length (`ai_addrlen`). -/
structure AddrInfoEntry where
  ai_addr : List Nat
  ai_addrlen : Nat
deriving DecidableEq, Repr

/-- Embeds `grpc_resolved_address`: address bytes plus occupied length, filled by
`memcpy(&addr.addr, resp->ai_addr, resp->ai_addrlen); addr.len = resp->ai_addrlen`. -/
structure ResolvedAddress where
  addr : List Nat
  len : Nat
deriving DecidableEq, Repr

/-- The OS address-resolution facility: `getaddrinfo` either succeeds with a
result list or fails with a nonzero numeric code; `gai_strerror` renders a
code as text. -/
structure OS where
  getaddrinfo : String → String → Except Int (List AddrInfoEntry)
  gai_strerror : Int → String

/-- String-valued error properties used by this file
(`StatusStrProperty::kTargetAddress`, `kOsError`, `kSyscall`). -/
inductive StatusStrProperty where
  | kTargetAddress
  | kOsError
  | kSyscall
deriving DecidableEq, Repr

/-- Integer-valued error properties used by this file
(`StatusIntProperty::kErrorNo`). -/
inductive StatusIntProperty where
  | kErrorNo
deriving DecidableEq, Repr

/-- Status codes relevant here: `GRPC_ERROR_CREATE` produces a `kUnknown`
status, `absl::UnimplementedError` a `kUnimplemented` one. -/
inductive StatusCode where
  | kUnknown
  | kUnimplemented
deriving DecidableEq, Repr

/-- Modelled from the spec: the StructuredError of §3 — `grpc_error_handle` /
`absl::Status` (construction helpers live in `error.h`, outside the given
sources): a status code, a message, and named integer and string
properties. -/
structure GrpcError where
  code : StatusCode
  message : String
  intProps : List (StatusIntProperty × Int)
  strProps : List (StatusStrProperty × String)
deriving DecidableEq, Repr

/-- Embeds `GRPC_ERROR_CREATE(msg)`: a fresh error with no properties. -/
def grpcErrorCreate (msg : String) : GrpcError :=
  ⟨StatusCode.kUnknown, msg, [], []⟩

/-- Embeds `grpc_error_set_str(err, which, value)`. -/
def grpcErrorSetStr (e : GrpcError) (which : StatusStrProperty) (value : String) :
    GrpcError :=
  { e with strProps := e.strProps ++ [(which, value)] }

/-- Embeds `grpc_error_set_int(err, which, value)`. -/
def grpcErrorSetInt (e : GrpcError) (which : StatusIntProperty) (value : Int) :
    GrpcError :=
  { e with intProps := e.intProps ++ [(which, value)] }

/-- Embeds `absl::UnimplementedError(msg)`. -/
def abslUnimplementedError (msg : String) : GrpcError :=
  ⟨StatusCode.kUnimplemented, msg, [], []⟩

/-- A single `getaddrinfo` invocation: the host and port it was given. -/
structure OSCall where
  host : String
  port : String
deriving DecidableEq, Repr

/-- Trace of a `LookupHostnameBlocking` run: the `getaddrinfo` calls issued in
order, the OS-owned result lists produced by successful calls, and the lists
released by `freeaddrinfo` before returning. -/
structure BlockingTrace where
  osCalls : List OSCall
  produced : List (List AddrInfoEntry)
  freed : List (List AddrInfoEntry)
deriving DecidableEq, Repr

/-- One `s = getaddrinfo(host, port, &hints, &result)` step: on success `s = 0`
and `result` points at the produced list; on failure `s` is the (nonzero) code
and `result` is left untouched (it stays `nullptr`). The second and third
components are the value of `result` and the list of produced OS-owned
results. -/
def gaiStep (os : OS) (host port : String) :
    Int × Option (List AddrInfoEntry) × List (List AddrInfoEntry) :=
  match os.getaddrinfo host port with
  | Except.ok entries => (0, some entries, [entries])
  | Except.error s => (s, none, [])

/-- The well-known service-name table `svc` of the retry loop:
`{{"http", "80"}, {"https", "443"}}`. -/
def svcTable : List (String × String) := [("http", "80"), ("https", "443")]

/-- The `getaddrinfo` block of `LookupHostnameBlocking`: the first call, then,
if it failed, the retry loop over `svc` (which retries at most once, with the
first matching entry's numeric port, breaking regardless of the outcome).
Returns the final `s`, the final `result`, the calls issued, and the OS-owned
results produced. -/
def gaiWithRetry (os : OS) (host port : String) :
    Int × Option (List AddrInfoEntry) × List OSCall × List (List AddrInfoEntry) :=
  let first := gaiStep os host port
  if first.1 ≠ 0 then
    match svcTable.find? (fun sv => port == sv.1) with
    | some sv =>
        let second := gaiStep os host sv.2
        (second.1, second.2.1, [⟨host, port⟩, ⟨host, sv.2⟩],
          first.2.2 ++ second.2.2)
    | none => (first.1, first.2.1, [⟨host, port⟩], first.2.2)
  else (first.1, first.2.1, [⟨host, port⟩], first.2.2)

/-- Translation of one `addrinfo` entry into a `grpc_resolved_address`:
copy the address bytes and the length. -/
def toResolvedAddress (e : AddrInfoEntry) : ResolvedAddress :=
  ⟨e.ai_addr, e.ai_addrlen⟩

/-- The error built on the OS-resolution failure path: message
`gai_strerror(s)`, integer property `kErrorNo = s`, string properties
`kOsError = gai_strerror(s)`, `kSyscall = "getaddrinfo"`,
`kTargetAddress = name`. -/
def osResolutionError (os : OS) (s : Int) (name : String) : GrpcError :=
  grpcErrorSetStr
    (grpcErrorSetStr
      (grpcErrorSetStr
        (grpcErrorSetInt (grpcErrorCreate (os.gai_strerror s))
          StatusIntProperty.kErrorNo s)
        StatusStrProperty.kOsError (os.gai_strerror s))
      StatusStrProperty.kSyscall "getaddrinfo")
    StatusStrProperty.kTargetAddress name

/-- Embeds `NativeDNSResolver::LookupHostnameBlocking(name, default_port)`.
`split` is `SplitHostPort`, `os` the OS resolution facility. Returns the
`absl::StatusOr<std::vector<grpc_resolved_address>>` together with the trace
of OS interactions. The `done:` label frees `result` exactly when it is
non-null, on every path. -/
def LookupHostnameBlocking (split : String → String × String) (os : OS)
    (name defaultPort : String) :
    Except GrpcError (List ResolvedAddress) × BlockingTrace :=
  let hp := split name
  let host := hp.1
  if host = "" then
    -- goto done with err = "unparseable host:port"; result is still nullptr
    (Except.error (grpcErrorSetStr (grpcErrorCreate "unparseable host:port")
        StatusStrProperty.kTargetAddress name),
      ⟨[], [], []⟩)
  else if hp.2 = "" ∧ defaultPort = "" then
    -- goto done with err = "no port in name"; result is still nullptr
    (Except.error (grpcErrorSetStr (grpcErrorCreate "no port in name")
        StatusStrProperty.kTargetAddress name),
      ⟨[], [], []⟩)
  else
    let port := if hp.2 = "" then defaultPort else hp.2
    let r := gaiWithRetry os host port
    if r.1 ≠ 0 then
      -- goto done with the OS failure error; free result if non-null
      (Except.error (osResolutionError os r.1 name),
        ⟨r.2.2.1, r.2.2.2, r.2.1.toList⟩)
    else
      -- success path: fill addresses from result, then free it if non-null
      (Except.ok ((r.2.1.getD []).map toResolvedAddress),
        ⟨r.2.2.1, r.2.2.2, r.2.1.toList⟩)

/-- Embeds `DNSResolver::TaskHandle`: two integer keys. -/
structure TaskHandle where
  key1 : Int
  key2 : Int
deriving DecidableEq, Repr

/-- Modelled from the spec: `kNullHandle` (declared in `resolve_address.h`,
outside the given sources) — the null/sentinel TaskHandle, `{0, 0}`. -/
def kNullHandle : TaskHandle := ⟨0, 0⟩

/-- The outcome of one asynchronous entry-point call: the TaskHandle it
returns, the callback invocations it performs inline (before returning), and
the work items it schedules on the event engine — each work item the list of
callback invocations it performs when it later runs. -/
structure AsyncOutcome (α : Type) where
  handle : TaskHandle
  inlineCalls : List α
  scheduled : List (List α)
deriving DecidableEq, Repr

/-- The result type delivered to hostname-lookup callbacks. -/
abbrev HostnameResult := Except GrpcError (List ResolvedAddress)

/-- Embeds `NativeDNSRequest(name, default_port, on_done)`: schedules one work item
on the default event engine; when run, it calls `LookupHostnameBlocking` and
then invokes `on_done` exactly once with the result. Returns the scheduled
work items. -/
def NativeDNSRequest (split : String → String × String) (os : OS)
    (name defaultPort : String) : List (List HostnameResult) :=
  [[(LookupHostnameBlocking split os name defaultPort).1]]

/-- Embeds `NativeDNSResolver::LookupHostname(on_done, name, default_port, timeout,
interested_parties, name_server)`: delegates to `NativeDNSRequest` and returns
`kNullHandle`. The `timeout`, `interested_parties` and `name_server`
parameters are unnamed in the source. -/
def LookupHostname (split : String → String × String) (os : OS)
    (name defaultPort : String) (timeout : Int) (interestedParties : Nat)
    (nameServer : String) : AsyncOutcome HostnameResult :=
  let _ := timeout
  let _ := interestedParties
  let _ := nameServer
  ⟨kNullHandle, [], NativeDNSRequest split os name defaultPort⟩

/-- The fixed message of the SRV stub. -/
def srvErrorMessage : String :=
  "The Native resolver does not support looking up SRV records"

/-- The fixed message of the TXT stub. -/
def txtErrorMessage : String :=
  "The Native resolver does not support looking up TXT records"

/-- Embeds `NativeDNSResolver::LookupSRV(on_resolved, name, timeout,
interested_parties, name_server)`: schedules one work item that invokes
`on_resolved` once with `absl::UnimplementedError(...)`, and returns
`{-1, -1}`. No OS facility is consulted. -/
def LookupSRV (name : String) (timeout : Int) (interestedParties : Nat)
    (nameServer : String) : AsyncOutcome HostnameResult :=
  let _ := name
  let _ := timeout
  let _ := interestedParties
  let _ := nameServer
  ⟨⟨-1, -1⟩, [], [[Except.error (abslUnimplementedError srvErrorMessage)]]⟩

/-- Embeds `NativeDNSResolver::LookupTXT(on_resolved, name, timeout,
interested_parties, name_server)`: schedules one work item that invokes
`on_resolved` once with `absl::UnimplementedError(...)`, and returns
`{-1, -1}`. No OS facility is consulted. -/
def LookupTXT (name : String) (timeout : Int) (interestedParties : Nat)
    (nameServer : String) : AsyncOutcome (Except GrpcError String) :=
  let _ := name
  let _ := timeout
  let _ := interestedParties
  let _ := nameServer
  ⟨⟨-1, -1⟩, [], [[Except.error (abslUnimplementedError txtErrorMessage)]]⟩

/-- Embeds `NativeDNSResolver::Cancel(handle)`. -/
def Cancel (handle : TaskHandle) : Bool :=
  let _ := handle
  false

end GrpcNativeResolver

namespace GrpcNativeResolver



/-- Fixture: a `SplitHostPort` outcome constant in its input, for concrete instances. -/
def splitTo (host port : String) : String → String × String :=
  fun _ => (host, port)

/-- An OS facility whose `getaddrinfo` always fails with code `-2`
(`EAI_NONAME` on Linux). -/
def osFailAll : OS :=
  ⟨fun _ _ => Except.error (-2), fun _ => "Name or service not known"⟩

/-- An OS facility whose `getaddrinfo` always succeeds with zero entries. -/
def osEmptyOk : OS :=
  ⟨fun _ _ => Except.ok [], fun _ => "Success"⟩

/-- A sample `addrinfo` entry: an IPv4 `sockaddr_in` for 127.0.0.1:80. -/
def sampleEntry : AddrInfoEntry :=
  ⟨[2, 0, 0, 80, 127, 0, 0, 1, 0, 0, 0, 0, 0, 0, 0, 0], 16⟩

/-- An OS facility whose `getaddrinfo` always succeeds with `[sampleEntry]`. -/
def osSingleOk : OS :=
  ⟨fun _ _ => Except.ok [sampleEntry], fun _ => "Success"⟩

lemma gaiWithRetry_calls_head (os : OS) (host port : String) :
    (gaiWithRetry os host port).2.2.1.head? = some ⟨host, port⟩ := by
  unfold gaiWithRetry
  split <;> dsimp only <;> split <;> simp

lemma gaiWithRetry_calls_length (os : OS) (host port : String) :
    (gaiWithRetry os host port).2.2.1.length ≤ 2 := by
  unfold gaiWithRetry
  split <;> dsimp only <;> split <;> simp


lemma gaiStep_toList (os : OS) (host port : String) :
    (gaiStep os host port).2.1.toList = (gaiStep os host port).2.2 := by
  unfold gaiStep
  cases h : os.getaddrinfo host port <;> simp

lemma gaiStep_fail (os : OS) (host port : String)
    (hs : (gaiStep os host port).1 ≠ 0) : (gaiStep os host port).2.2 = [] := by
  revert hs
  unfold gaiStep
  cases h : os.getaddrinfo host port <;> simp

lemma gaiWithRetry_result_toList (os : OS) (host port : String) :
    (gaiWithRetry os host port).2.1.toList = (gaiWithRetry os host port).2.2.2 := by
  unfold gaiWithRetry
  split
  · dsimp only
    split
    · next hs => rw [gaiStep_fail os host port hs, gaiStep_toList]; simp
    · exact gaiStep_toList os host port
  · dsimp only
    split
    · exact gaiStep_toList os host port
    · exact gaiStep_toList os host port

lemma gaiStep_produced_length (os : OS) (host port : String) :
    (gaiStep os host port).2.2.length ≤ 1 := by
  unfold gaiStep
  cases h : os.getaddrinfo host port <;> simp

lemma gaiWithRetry_produced_length (os : OS) (host port : String) :
    (gaiWithRetry os host port).2.2.2.length ≤ 1 := by
  unfold gaiWithRetry
  split
  · rename_i sv heq
    dsimp only
    split
    · next hs =>
      rw [gaiStep_fail os host port hs]
      simpa using gaiStep_produced_length os host sv.2
    · exact gaiStep_produced_length os host port
  · dsimp only
    split
    · exact gaiStep_produced_length os host port
    · exact gaiStep_produced_length os host port

lemma lookupHostnameBlocking_parsed (split : String → String × String) (os : OS)
    (name defaultPort host port0 port : String)
    (hsplit : split name = (host, port0)) (hhost : host ≠ "")
    (hne : ¬(port0 = "" ∧ defaultPort = ""))
    (hport : port = if port0 = "" then defaultPort else port0) :
    LookupHostnameBlocking split os name defaultPort =
      (if (gaiWithRetry os host port).1 ≠ 0 then
        (Except.error (osResolutionError os (gaiWithRetry os host port).1 name),
          ⟨(gaiWithRetry os host port).2.2.1, (gaiWithRetry os host port).2.2.2,
           (gaiWithRetry os host port).2.1.toList⟩)
      else
        (Except.ok (((gaiWithRetry os host port).2.1.getD []).map toResolvedAddress),
          ⟨(gaiWithRetry os host port).2.2.1, (gaiWithRetry os host port).2.2.2,
           (gaiWithRetry os host port).2.1.toList⟩)) := by
  subst hport
  unfold LookupHostnameBlocking
  dsimp only
  rw [hsplit]
  dsimp only
  rw [if_neg hhost, if_neg hne]


lemma gaiWithRetry_calls_first_fail (os : OS) (host port : String) (s : Int)
    (hfail : os.getaddrinfo host port = Except.error s) (hs : s ≠ 0) :
    (gaiWithRetry os host port).2.2.1 =
      OSCall.mk host port ::
        (if port = "http" then [OSCall.mk host "80"]
         else if port = "https" then [OSCall.mk host "443"]
         else []) := by
  unfold gaiWithRetry gaiStep
  rw [hfail]
  dsimp only
  rw [if_pos hs]
  by_cases h1 : port = "http"
  · subst h1; simp [svcTable, List.find?]
  · by_cases h2 : port = "https"
    · subst h2; simp [svcTable, List.find?]
    · have e1 : (port == "http") = false := beq_eq_false_iff_ne.mpr h1
      have e2 : (port == "https") = false := beq_eq_false_iff_ne.mpr h2
      simp [svcTable, List.find?, e1, e2, h1, h2]

lemma lookupHostnameBlocking_osCalls_length (split : String → String × String)
    (os : OS) (name defaultPort : String) :
    ((LookupHostnameBlocking split os name defaultPort).2.osCalls).length ≤ 2 := by
  unfold LookupHostnameBlocking
  dsimp only
  split
  · simp
  · split
    · simp
    · split <;> split <;> exact gaiWithRetry_calls_length os _ _


/-! ## Claim theorems -/

/-- C1: In `LookupHostnameBlocking`, if the OS `getaddrinfo` call fails and the
effective port string equals `"http"` or `"https"`, exactly one retry is
performed with the corresponding numeric port (`"80"` for `"http"`, `"443"`
for `"https"`); for every other port string no retry is performed, and never
more than one retry (hence never more than two OS calls) occurs per call. -/
theorem lookupHostnameBlocking_wellknown_retry
    (split : String → String × String) (os : OS) (name defaultPort : String)
    (host port0 port : String)
    (hsplit : split name = (host, port0)) (hhost : host ≠ "")
    (hne : ¬(port0 = "" ∧ defaultPort = ""))
    (hport : port = if port0 = "" then defaultPort else port0)
    (s : Int) (hfail : os.getaddrinfo host port = Except.error s) (hs : s ≠ 0) :
    (LookupHostnameBlocking split os name defaultPort).2.osCalls =
      OSCall.mk host port ::
        (if port = "http" then [OSCall.mk host "80"]
         else if port = "https" then [OSCall.mk host "443"]
         else []) ∧
    ((LookupHostnameBlocking split os name defaultPort).2.osCalls).length ≤ 2 := by
  refine ⟨?_, lookupHostnameBlocking_osCalls_length split os name defaultPort⟩
  rw [lookupHostnameBlocking_parsed split os name defaultPort host port0 port
    hsplit hhost hne hport]
  split <;> exact gaiWithRetry_calls_first_fail os host port s hfail hs

/-- C2: for every name whose (successful) parse yields an empty port, if
`defaultPort` is also empty then `LookupHostnameBlocking` fails with the
"no port in name" (MissingPort) error carrying the original target string,
and the OS facility is never invoked; otherwise `defaultPort` is adopted as
the port of the first OS call. -/
theorem lookupHostnameBlocking_missing_port
    (split : String → String × String) (os : OS) (name defaultPort host : String)
    (hsplit : split name = (host, "")) (hhost : host ≠ "") :
    (defaultPort = "" →
      LookupHostnameBlocking split os name defaultPort =
        (Except.error ⟨StatusCode.kUnknown, "no port in name", [],
          [(StatusStrProperty.kTargetAddress, name)]⟩,
         ⟨[], [], []⟩)) ∧
    (defaultPort ≠ "" →
      (LookupHostnameBlocking split os name defaultPort).2.osCalls.head? =
        some ⟨host, defaultPort⟩) := by
  constructor
  · intro hdp
    subst hdp
    unfold LookupHostnameBlocking
    dsimp only
    rw [hsplit]
    dsimp only
    rw [if_neg hhost, if_pos ⟨rfl, rfl⟩]
    simp [grpcErrorSetStr, grpcErrorCreate]
  · intro hdp
    rw [lookupHostnameBlocking_parsed split os name defaultPort host ""
      defaultPort hsplit hhost (by simp [hdp]) (by simp)]
    split <;> exact gaiWithRetry_calls_head os host defaultPort

/-- C3: for every name from which no non-empty host portion can be extracted,
`LookupHostnameBlocking` fails with the "unparseable host:port"
(UnparseableTarget) error carrying the original target string, regardless of
`defaultPort`, and the OS facility is never invoked. -/
theorem lookupHostnameBlocking_unparseable_target
    (split : String → String × String) (os : OS) (name defaultPort : String)
    (hhost : (split name).1 = "") :
    LookupHostnameBlocking split os name defaultPort =
      (Except.error ⟨StatusCode.kUnknown, "unparseable host:port", [],
        [(StatusStrProperty.kTargetAddress, name)]⟩,
       ⟨[], [], []⟩) := by
  unfold LookupHostnameBlocking
  dsimp only
  rw [if_pos hhost]
  simp [grpcErrorSetStr, grpcErrorCreate]


/-- C4: whenever the OS resolution (including the single well-known-port
retry, if taken) succeeds with result list `entries`, `LookupHostnameBlocking`
returns success with exactly one `ResolvedAddress` per entry, copying each
entry address bytes and length, in enumeration order; in particular an empty
`entries` yields success with the empty list. -/
theorem lookupHostnameBlocking_success_translation
    (split : String → String × String) (os : OS) (name defaultPort : String)
    (host port0 port : String)
    (hsplit : split name = (host, port0)) (hhost : host ≠ "")
    (hne : ¬(port0 = "" ∧ defaultPort = ""))
    (hport : port = if port0 = "" then defaultPort else port0)
    (entries : List AddrInfoEntry)
    (hs : (gaiWithRetry os host port).1 = 0)
    (hres : (gaiWithRetry os host port).2.1 = some entries) :
    (LookupHostnameBlocking split os name defaultPort).1 =
      Except.ok (entries.map toResolvedAddress) := by
  rw [lookupHostnameBlocking_parsed split os name defaultPort host port0 port
    hsplit hhost hne hport]
  split
  · next h => exact absurd hs h
  · simp [hres]

/-- C5: whenever OS resolution fails (after the single well-known-port retry,
if applicable) with nonzero code `s`, `LookupHostnameBlocking` returns an
error whose message is the OS error string, carrying the numeric code
(`kErrorNo`), the OS error string (`kOsError`), the syscall name
`"getaddrinfo"` (`kSyscall`), and the original target string
(`kTargetAddress`). -/
theorem lookupHostnameBlocking_os_failure_error
    (split : String → String × String) (os : OS) (name defaultPort : String)
    (host port0 port : String)
    (hsplit : split name = (host, port0)) (hhost : host ≠ "")
    (hne : ¬(port0 = "" ∧ defaultPort = ""))
    (hport : port = if port0 = "" then defaultPort else port0)
    (s : Int) (hs : (gaiWithRetry os host port).1 = s) (hsne : s ≠ 0) :
    (LookupHostnameBlocking split os name defaultPort).1 =
      Except.error ⟨StatusCode.kUnknown, os.gai_strerror s,
        [(StatusIntProperty.kErrorNo, s)],
        [(StatusStrProperty.kOsError, os.gai_strerror s),
         (StatusStrProperty.kSyscall, "getaddrinfo"),
         (StatusStrProperty.kTargetAddress, name)]⟩ := by
  rw [lookupHostnameBlocking_parsed split os name defaultPort host port0 port
    hsplit hhost hne hport]
  split
  · rw [hs]
    simp [osResolutionError, grpcErrorSetStr, grpcErrorSetInt, grpcErrorCreate]
  · next h =>
    rw [hs] at h
    simp at h
    exact absurd h hsne


/-- C6: every `LookupHostname` call schedules exactly one work item on the
work-dispatch facility, invokes no callback inline, and returns `kNullHandle`
synchronously; the scheduled work item, when run, invokes `on_done` exactly
once with exactly `LookupHostnameBlocking(name, defaultPort)` result — so the
outcome is independent of the `timeout`, `interestedParties` and `nameServer`
arguments. -/
theorem lookupHostname_dispatch_contract
    (split : String → String × String) (os : OS) (name defaultPort : String)
    (timeout timeout' : Int) (parties parties' : Nat) (server server' : String) :
    LookupHostname split os name defaultPort timeout parties server =
      ⟨kNullHandle, [],
        [[(LookupHostnameBlocking split os name defaultPort).1]]⟩ ∧
    LookupHostname split os name defaultPort timeout parties server =
      LookupHostname split os name defaultPort timeout' parties' server' :=
  ⟨rfl, rfl⟩

/-- C7: `LookupSRV` and `LookupTXT` consult no OS facility (they take none);
each schedules exactly one work item, invokes no callback inline, has the
scheduled item invoke the callback exactly once with an UnimplementedError
whose fixed message names the unsupported record type, and returns the
distinguished invalid handle `{-1, -1}` immediately. -/
theorem lookupSRV_lookupTXT_unsupported
    (name : String) (timeout : Int) (parties : Nat) (server : String) :
    LookupSRV name timeout parties server =
      ⟨⟨-1, -1⟩, [],
        [[Except.error ⟨StatusCode.kUnimplemented,
            "The Native resolver does not support looking up SRV records",
            [], []⟩]]⟩ ∧
    LookupTXT name timeout parties server =
      ⟨⟨-1, -1⟩, [],
        [[Except.error ⟨StatusCode.kUnimplemented,
            "The Native resolver does not support looking up TXT records",
            [], []⟩]]⟩ :=
  ⟨rfl, rfl⟩

/-- C8: the well-known-service fallback is matched against the effective port
after default-port substitution: for a name parsing with no port and
`defaultPort` equal to `"http"` or `"https"`, a failed first OS attempt is
retried with the corresponding numeric port. -/
theorem lookupHostnameBlocking_fallback_on_default_port
    (split : String → String × String) (os : OS)
    (name defaultPort numeric host : String)
    (hsplit : split name = (host, "")) (hhost : host ≠ "")
    (hdp : (defaultPort = "http" ∧ numeric = "80") ∨
           (defaultPort = "https" ∧ numeric = "443"))
    (s : Int) (hfail : os.getaddrinfo host defaultPort = Except.error s)
    (hs : s ≠ 0) :
    (LookupHostnameBlocking split os name defaultPort).2.osCalls =
      [OSCall.mk host defaultPort, OSCall.mk host numeric] := by
  have hdpne : defaultPort ≠ "" := by
    rcases hdp with ⟨h, _⟩ | ⟨h, _⟩ <;> subst h <;> decide
  rw [lookupHostnameBlocking_parsed split os name defaultPort host ""
    defaultPort hsplit hhost (by simp [hdpne]) (by simp)]
  have hcalls := gaiWithRetry_calls_first_fail os host defaultPort s hfail hs
  rcases hdp with ⟨h, hn⟩ | ⟨h, hn⟩ <;> subst h <;> subst hn <;>
    simp at hcalls <;> split <;> simpa using hcalls

/-- C9: on every exit path of `LookupHostnameBlocking` the OS-owned
intermediate results that were produced are exactly the ones released (each
exactly once, since at most one is ever produced). -/
theorem lookupHostnameBlocking_releases_os_result
    (split : String → String × String) (os : OS) (name defaultPort : String) :
    (LookupHostnameBlocking split os name defaultPort).2.freed =
      (LookupHostnameBlocking split os name defaultPort).2.produced ∧
    ((LookupHostnameBlocking split os name defaultPort).2.produced).length ≤ 1 := by
  constructor
  · unfold LookupHostnameBlocking
    dsimp only
    split
    · rfl
    · split
      · rfl
      · split <;> split <;> exact gaiWithRetry_result_toList os _ _
  · unfold LookupHostnameBlocking
    dsimp only
    split
    · simp
    · split
      · simp
      · split <;> split <;> exact gaiWithRetry_produced_length os _ _

/-- C10: `Cancel` returns `false` for every TaskHandle, including the handles
just returned by `LookupHostname`, `LookupSRV` and `LookupTXT`. -/
theorem cancel_always_returns_false
    (handle : TaskHandle) (split : String → String × String) (os : OS)
    (name defaultPort : String) (timeout : Int) (parties : Nat) (server : String) :
    Cancel handle = false ∧
    Cancel (LookupHostname split os name defaultPort timeout parties server).handle
      = false ∧
    Cancel (LookupSRV name timeout parties server).handle = false ∧
    Cancel (LookupTXT name timeout parties server).handle = false :=
  ⟨rfl, rfl, rfl, rfl⟩


/-! ## Witnesses -/

/-- C1 witness: host `"a"`, effective port `"http"`, failing OS facility. -/
theorem lookupHostnameBlocking_wellknown_retry_witness :
    splitTo "a" "http" "a:http" = ("a", "http") ∧
    ("a" : String) ≠ "" ∧
    ¬(("http" : String) = "" ∧ ("" : String) = "") ∧
    ("http" : String) = (if ("http" : String) = "" then "" else "http") ∧
    osFailAll.getaddrinfo "a" "http" = Except.error (-2) ∧
    ((-2 : Int) ≠ 0) ∧
    ((LookupHostnameBlocking (splitTo "a" "http") osFailAll "a:http" "").2.osCalls =
      OSCall.mk "a" "http" ::
        (if ("http" : String) = "http" then [OSCall.mk "a" "80"]
         else if ("http" : String) = "https" then [OSCall.mk "a" "443"]
         else []) ∧
     ((LookupHostnameBlocking (splitTo "a" "http") osFailAll
        "a:http" "").2.osCalls).length ≤ 2) :=
  ⟨rfl, by decide, by decide, by decide, rfl, by decide,
    lookupHostnameBlocking_wellknown_retry (splitTo "a" "http") osFailAll
      "a:http" "" "a" "http" "http" rfl (by decide) (by decide) (by decide)
      (-2) rfl (by decide)⟩

/-- C2 witness: host `"localhost"`, no parsed port; both an empty and a
non-empty default port. -/
theorem lookupHostnameBlocking_missing_port_witness :
    splitTo "localhost" "" "localhost" = ("localhost", "") ∧
    ("localhost" : String) ≠ "" ∧
    LookupHostnameBlocking (splitTo "localhost" "") osFailAll "localhost" "" =
      (Except.error ⟨StatusCode.kUnknown, "no port in name", [],
        [(StatusStrProperty.kTargetAddress, "localhost")]⟩, ⟨[], [], []⟩) ∧
    (LookupHostnameBlocking (splitTo "localhost" "") osSingleOk "localhost"
        "8080").2.osCalls.head? = some ⟨"localhost", "8080"⟩ :=
  ⟨rfl, by decide,
    (lookupHostnameBlocking_missing_port (splitTo "localhost" "") osFailAll
      "localhost" "" "localhost" rfl (by decide)).1 rfl,
    (lookupHostnameBlocking_missing_port (splitTo "localhost" "") osSingleOk
      "localhost" "8080" "localhost" rfl (by decide)).2 (by decide)⟩

/-- C3 witness: the empty target parses to an empty host. -/
theorem lookupHostnameBlocking_unparseable_target_witness :
    (splitTo "" "" "").1 = "" ∧
    LookupHostnameBlocking (splitTo "" "") osFailAll "" "443" =
      (Except.error ⟨StatusCode.kUnknown, "unparseable host:port", [],
        [(StatusStrProperty.kTargetAddress, "")]⟩, ⟨[], [], []⟩) :=
  ⟨rfl,
    lookupHostnameBlocking_unparseable_target (splitTo "" "") osFailAll
      "" "443" rfl⟩

/-- C4 witness: a single-entry OS result is translated entrywise, and a
zero-entry OS result yields success with the empty list. -/
theorem lookupHostnameBlocking_success_translation_witness :
    splitTo "a" "1234" "a:1234" = ("a", "1234") ∧
    ("a" : String) ≠ "" ∧
    ¬(("1234" : String) = "" ∧ ("" : String) = "") ∧
    ("1234" : String) = (if ("1234" : String) = "" then "" else "1234") ∧
    (gaiWithRetry osSingleOk "a" "1234").1 = 0 ∧
    (gaiWithRetry osSingleOk "a" "1234").2.1 = some [sampleEntry] ∧
    (LookupHostnameBlocking (splitTo "a" "1234") osSingleOk "a:1234" "").1 =
      Except.ok [⟨[2, 0, 0, 80, 127, 0, 0, 1, 0, 0, 0, 0, 0, 0, 0, 0], 16⟩] ∧
    (LookupHostnameBlocking (splitTo "a" "1234") osEmptyOk "a:1234" "").1 =
      Except.ok [] :=
  ⟨rfl, by decide, by decide, by decide, rfl, rfl,
    lookupHostnameBlocking_success_translation (splitTo "a" "1234") osSingleOk
      "a:1234" "" "a" "1234" "1234" rfl (by decide) (by decide) (by decide)
      [sampleEntry] rfl rfl,
    lookupHostnameBlocking_success_translation (splitTo "a" "1234") osEmptyOk
      "a:1234" "" "a" "1234" "1234" rfl (by decide) (by decide) (by decide)
      [] rfl rfl⟩

/-- C5 witness: host `"a"`, port `"1234"` (no fallback), failing OS facility
with code `-2`. -/
theorem lookupHostnameBlocking_os_failure_error_witness :
    splitTo "a" "1234" "a:1234" = ("a", "1234") ∧
    ("a" : String) ≠ "" ∧
    ¬(("1234" : String) = "" ∧ ("" : String) = "") ∧
    ("1234" : String) = (if ("1234" : String) = "" then "" else "1234") ∧
    (gaiWithRetry osFailAll "a" "1234").1 = -2 ∧
    ((-2 : Int) ≠ 0) ∧
    (LookupHostnameBlocking (splitTo "a" "1234") osFailAll "a:1234" "").1 =
      Except.error ⟨StatusCode.kUnknown, "Name or service not known",
        [(StatusIntProperty.kErrorNo, -2)],
        [(StatusStrProperty.kOsError, "Name or service not known"),
         (StatusStrProperty.kSyscall, "getaddrinfo"),
         (StatusStrProperty.kTargetAddress, "a:1234")]⟩ :=
  ⟨rfl, by decide, by decide, by decide, rfl, by decide,
    lookupHostnameBlocking_os_failure_error (splitTo "a" "1234") osFailAll
      "a:1234" "" "a" "1234" "1234" rfl (by decide) (by decide) (by decide)
      (-2) rfl (by decide)⟩

/-- C8 witness: no parsed port, `defaultPort = "https"`, failing OS facility:
the retry uses `"443"`. -/
theorem lookupHostnameBlocking_fallback_on_default_port_witness :
    splitTo "a" "" "a" = ("a", "") ∧
    ("a" : String) ≠ "" ∧
    ((("https" : String) = "http" ∧ ("443" : String) = "80") ∨
     (("https" : String) = "https" ∧ ("443" : String) = "443")) ∧
    osFailAll.getaddrinfo "a" "https" = Except.error (-2) ∧
    ((-2 : Int) ≠ 0) ∧
    (LookupHostnameBlocking (splitTo "a" "") osFailAll "a" "https").2.osCalls =
      [OSCall.mk "a" "https", OSCall.mk "a" "443"] :=
  ⟨rfl, by decide, Or.inr ⟨rfl, rfl⟩, rfl, by decide,
    lookupHostnameBlocking_fallback_on_default_port (splitTo "a" "") osFailAll
      "a" "https" "443" "a" rfl (by decide) (Or.inr ⟨rfl, rfl⟩) (-2) rfl
      (by decide)⟩

end GrpcNativeResolver
